import Mathlib

/-!
Verification of the `asynch` Connection lifecycle state machine
(`asynch/connection.py`) and of the Pool construction checks.

The Connection stores two flags, `_opened : Optional[bool]` and
`_closed : Optional[bool]`, both `None` at construction.  Each lifecycle
method talks to an underlying Session (the proto connection); the Session
primitives connect / disconnect / ping may succeed or fail, so they enter
the shallow embedding as explicit boolean outcome parameters.  A Python
method that raises is embedded as a function returning the post-mutation
state paired with `some err`; a normal return yields `none` in the second
component (mutations performed before a raise persist, ones after do not).
-/

instance {ε α : Type} [DecidableEq ε] [DecidableEq α] : DecidableEq (Except ε α) := fun a b =>
  match a, b with
  | .error e1, .error e2 =>
    if h : e1 = e2 then .isTrue (congrArg Except.error h)
    else .isFalse (fun hc => h (Except.error.inj hc))
  | .error _, .ok _ => .isFalse (fun hc => Except.noConfusion hc)
  | .ok _, .error _ => .isFalse (fun hc => Except.noConfusion hc)
  | .ok a1, .ok a2 =>
    if h : a1 = a2 then .isTrue (congrArg Except.ok h)
    else .isFalse (fun hc => h (Except.ok.inj hc))

namespace Asynch

/-- The three-valued connection status enum (`ConnectionStatus`). -/
inductive ConnectionStatus where
  | created
  | opened
  | closed
deriving DecidableEq, Repr, Fintype

/-- Exception classes observable from the embedded methods:
`ConnectionError` raised by `connection.py` itself, an exception
propagating out of a Session primitive, and `NotSupportedError`. -/
inductive PyErr where
  | connectionError
  | sessionError
  | notSupportedError
deriving DecidableEq, Repr, Fintype

/-- The mutable state of a `Connection`: the `_opened` and `_closed`
flags (`Optional[bool]` in the source, both `None` at construction). -/
structure ConnState where
  opened : Option Bool
  closed : Option Bool
deriving DecidableEq, Repr, Fintype

/-- Python truthiness of an `Optional[bool]`: `None` and `False` are
falsy, `True` is truthy. -/
def truthy : Option Bool → Bool
  | some b => b
  | none => false

namespace Connection

/-- The flag state of a freshly constructed Connection
(`self._opened = None`, `self._closed = None`). -/
def createdConn : ConnState := ⟨none, none⟩

/-- `Connection.status` property: `created` when both flags are `None`,
else `opened` when `_opened` is truthy, else `closed` when `_closed` is
truthy, else it raises `ConnectionError` (unknown state). -/
def status (s : ConnState) : Except PyErr ConnectionStatus :=
  if s.opened = none ∧ s.closed = none then .ok .created
  else if truthy s.opened then .ok .opened
  else if truthy s.closed then .ok .closed
  else .error .connectionError

/-- `Connection.connect`: when `_opened` is not truthy it awaits the
Session connect (outcome `sessOk`; on failure the exception propagates
with no mutation), then sets `_opened = True` and flips `_closed` from
`True` to `False` (`if self._closed is True`). -/
def connect (sessOk : Bool) (s : ConnState) : ConnState × Option PyErr :=
  if truthy s.opened then (s, none)
  else if sessOk then
    (⟨some true, if s.closed = some true then some false else s.closed⟩, none)
  else (s, some .sessionError)

/-- `Connection.close`: early return when `_closed` is truthy; when
`_opened` is truthy it awaits the Session disconnect (outcome `discOk`;
on failure the exception propagates before the flag assignments run);
then sets `_opened = False`, `_closed = True`. -/
def close (discOk : Bool) (s : ConnState) : ConnState × Option PyErr :=
  if truthy s.closed then (s, none)
  else if truthy s.opened then
    if discOk then (⟨some false, some true⟩, none)
    else (s, some .sessionError)
  else (⟨some false, some true⟩, none)

/-- `Connection.ping`: raises `ConnectionError` when the Session ping
reports `False` (`alive`), never mutates the flags. -/
def ping (alive : Bool) (s : ConnState) : ConnState × Option PyErr :=
  if alive then (s, none) else (s, some .connectionError)

/-- `Connection.commit`: unconditionally raises `NotSupportedError`. -/
def commit (s : ConnState) : ConnState × Option PyErr :=
  (s, some .notSupportedError)

/-- `Connection.rollback`: unconditionally raises `NotSupportedError`. -/
def rollback (s : ConnState) : ConnState × Option PyErr :=
  (s, some .notSupportedError)

/-- `Connection._refresh`: reads `self.status` (whose `ConnectionError`
would propagate), raises `ConnectionError` on `created` and on `closed`,
otherwise pings (`alive` is the Session ping result) and, catching only
`ConnectionError`, calls `self.connect` (Session outcome `sessOk`). -/
def refresh (alive sessOk : Bool) (s : ConnState) : ConnState × Option PyErr :=
  match status s with
  | .error e => (s, some e)
  | .ok .created => (s, some .connectionError)
  | .ok .closed => (s, some .connectionError)
  | .ok .opened =>
    match ping alive s with
    | (s1, none) => (s1, none)
    | (s1, some .connectionError) => connect sessOk s1
    | (s1, some e) => (s1, some e)

/-- One public lifecycle call together with the outcomes of the Session
primitives it may consume. -/
inductive Op where
  | connect (sessOk : Bool)
  | close (discOk : Bool)
  | ping (alive : Bool)
  | refresh (alive sessOk : Bool)
deriving DecidableEq, Repr, Fintype

/-- Flag state after running one call (the state persists even when the
call raised, as the Python object does). -/
def applyOp : Op → ConnState → ConnState × Option PyErr
  | .connect sk, s => connect sk s
  | .close dk, s => close dk s
  | .ping a, s => ping a s
  | .refresh a sk, s => refresh a sk s

/-- Flag states reachable from a fresh Connection by any finite sequence
of connect / close / ping / refresh calls with arbitrary Session
outcomes. -/
inductive Reachable : ConnState → Prop where
  | init : Reachable createdConn
  | step (op : Op) (s : ConnState) : Reachable s → Reachable (applyOp op s).1

/-- The four flag states the API can actually produce. -/
def goodStates : List ConnState :=
  [⟨none, none⟩, ⟨some true, none⟩, ⟨some false, some true⟩, ⟨some true, some false⟩]

/-- Invariant: the flags stay within `goodStates`. -/
def InvS (s : ConnState) : Prop := s ∈ goodStates

instance : DecidablePred InvS := fun s =>
  inferInstanceAs (Decidable (s ∈ goodStates))

lemma invS_step (op : Op) (s : ConnState) (h : InvS s) : InvS (applyOp op s).1 := by
  revert h
  revert s
  revert op
  decide

lemma reachable_invS (s : ConnState) (h : Reachable s) : InvS s := by
  induction h with
  | init => decide
  | step op t _ ih => exact invS_step op t ih

lemma reachable_opened_state : Reachable ⟨some true, none⟩ := by
  have h := Reachable.step (Op.connect true) createdConn Reachable.init
  simpa [applyOp, Connection.connect, createdConn, truthy] using h

/-- C1: on an `opened` Connection whose Session ping reports failure,
`_refresh` returns normally and leaves the state untouched, whatever the
Session connect outcome would be: the inner `self.connect()` is a no-op
because `_opened` is still `True`, so the Session is never re-connected
and no failure can propagate — the ping failure is silently swallowed,
contradicting the docstring of `_refresh`. -/
theorem refresh_swallows_ping_failure :
    refresh false false ⟨some true, none⟩ = (⟨some true, none⟩, none)
    ∧ refresh false true ⟨some true, none⟩ = (⟨some true, none⟩, none) := by
  decide

/-- C2, counterexample: for the opened state, when the Session disconnect
raises, `close` propagates the exception before the flag assignments run,
so the Connection is NOT marked closed — its status is still `opened`. -/
theorem close_not_unconditionally_closed :
    status ⟨some true, none⟩ = Except.ok ConnectionStatus.opened
    ∧ close false ⟨some true, none⟩ = (⟨some true, none⟩, some PyErr.sessionError)
    ∧ status (close false ⟨some true, none⟩).1 ≠ Except.ok ConnectionStatus.closed := by
  decide

/-- C2, amended: for every reachable Connection whose status is `opened`,
`close` with a normally-returning Session disconnect marks it closed; when
the disconnect raises, the exception propagates and the state (hence the
status `opened`) is unchanged. -/
theorem close_opened_transitions (s : ConnState) (hr : Reachable s)
    (h : status s = Except.ok ConnectionStatus.opened) :
    close true s = (⟨some false, some true⟩, none)
    ∧ status (close true s).1 = Except.ok ConnectionStatus.closed
    ∧ close false s = (s, some PyErr.sessionError)
    ∧ status (close false s).1 = Except.ok ConnectionStatus.opened := by
  have hi := reachable_invS s hr
  clear hr
  revert s
  decide

/-- C2, witness for the amended theorem at the state reached by a single
successful `connect` from a fresh Connection. -/
theorem close_opened_transitions_witness :
    close true ⟨some true, none⟩ = (⟨some false, some true⟩, none)
    ∧ status (close true (⟨some true, none⟩ : ConnState)).1
        = Except.ok ConnectionStatus.closed :=
  have h := close_opened_transitions ⟨some true, none⟩ reachable_opened_state (by decide)
  ⟨h.1, h.2.1⟩

/-- C3: on a Connection whose status is `created` or `closed`, a failing
Session-level connect propagates its exception unchanged and leaves the
flag state exactly as it was before the call. -/
theorem connect_failure_propagates_state_unchanged (s : ConnState)
    (h : status s = Except.ok ConnectionStatus.created
        ∨ status s = Except.ok ConnectionStatus.closed) :
    connect false s = (s, some PyErr.sessionError) := by
  revert s
  decide

/-- C3, witness at the fresh (`created`) state. -/
theorem connect_failure_propagates_witness :
    connect false createdConn = (createdConn, some PyErr.sessionError) :=
  connect_failure_propagates_state_unchanged createdConn (Or.inl (by decide))

/-- C4: `close` is idempotent.  On an already-`closed` Connection a second
`close` returns normally, is independent of the Session disconnect outcome
(the disconnect is not invoked), and leaves the state unchanged; moreover
after any `close` that returned normally, a further `close` leaves the
state exactly as the first one did. -/
theorem close_idempotent (s : ConnState) (d1 d2 : Bool)
    (h : status s = Except.ok ConnectionStatus.closed) :
    close d1 s = (s, none)
    ∧ (close d2 (close d1 s).1).1 = (close d1 s).1 := by
  revert d2
  revert d1
  revert s
  decide

/-- C4, witness at the state after a completed open/close cycle. -/
theorem close_idempotent_witness :
    close true ⟨some false, some true⟩ = (⟨some false, some true⟩, none)
    ∧ (close true (close true (⟨some false, some true⟩ : ConnState)).1).1
        = (close true (⟨some false, some true⟩ : ConnState)).1 :=
  close_idempotent ⟨some false, some true⟩ true true (by decide)

/-- C5: `connect` is a no-op on an `opened` Connection (the result does
not depend on the Session outcome and the state is returned unchanged);
otherwise, when the Session connect succeeds, the status becomes `opened`
— in particular `closed` transitions to `opened`. -/
theorem connect_noop_or_opens (s : ConnState) (b : Bool) :
    (status s = Except.ok ConnectionStatus.opened → connect b s = (s, none))
    ∧ (status s = Except.ok ConnectionStatus.created
        ∨ status s = Except.ok ConnectionStatus.closed →
        (connect true s).2 = none
        ∧ status (connect true s).1 = Except.ok ConnectionStatus.opened) := by
  revert b
  revert s
  decide

/-- C5, witness: the no-op on an opened state (with a failing Session
outcome, showing the Session is not consulted) and the closed-to-opened
transition. -/
theorem connect_noop_or_opens_witness :
    connect false ⟨some true, none⟩ = (⟨some true, none⟩, none)
    ∧ ((connect true (⟨some false, some true⟩ : ConnState)).2 = none
        ∧ status (connect true (⟨some false, some true⟩ : ConnState)).1
            = Except.ok ConnectionStatus.opened) :=
  ⟨(connect_noop_or_opens ⟨some true, none⟩ false).1 (by decide),
   (connect_noop_or_opens ⟨some false, some true⟩ true).2 (Or.inr (by decide))⟩

/-- C6: every flag state reachable from a fresh Connection through any
finite sequence of connect / close / ping / refresh calls, with every
Session primitive free to succeed or fail, makes `status` return one of
the three enum values — the raising branch is unreachable. -/
theorem status_total_on_reachable (s : ConnState) (h : Reachable s) :
    ∃ st, status s = Except.ok st := by
  have hi : InvS s := reachable_invS s h
  clear h
  revert s
  decide

/-- C6, witness at the fresh state. -/
theorem status_total_on_reachable_witness :
    ∃ st, status createdConn = Except.ok st :=
  status_total_on_reachable createdConn Reachable.init

/-- C7: `ping` raises `ConnectionError` exactly when the Session
liveliness check reports failure, returns normally exactly when it
reports success, and never mutates the flag state. -/
theorem ping_faithful_and_pure (s : ConnState) (alive : Bool) :
    (ping alive s).1 = s
    ∧ ((ping alive s).2 = some PyErr.connectionError ↔ alive = false)
    ∧ ((ping alive s).2 = none ↔ alive = true) := by
  revert alive
  revert s
  decide

/-- C7, witness at the opened state with a failing liveliness check. -/
theorem ping_faithful_and_pure_witness :
    (ping false (⟨some true, none⟩ : ConnState)).1 = ⟨some true, none⟩
    ∧ (ping false (⟨some true, none⟩ : ConnState)).2 = some PyErr.connectionError :=
  have h := ping_faithful_and_pure ⟨some true, none⟩ false
  ⟨h.1, h.2.1.mpr rfl⟩

/-- C8: `commit` and `rollback` raise `NotSupportedError` in every
Connection state, never return normally, and leave the state unchanged. -/
theorem commit_rollback_not_supported (s : ConnState) :
    commit s = (s, some PyErr.notSupportedError)
    ∧ rollback s = (s, some PyErr.notSupportedError) := by
  revert s
  decide

end Connection

/-- Configuration errors of `Pool.__init__` (a `ValueError` per
tests/test_pool.py, one per violated bound). -/
inductive PoolConfigError where
  | minsizeNegative
  | maxsizeNotPositive
  | minsizeGreaterThanMaxsize
deriving DecidableEq, Repr

/-- The configuration record a successful Pool construction stores. -/
structure PoolConfig where
  minsize : Int
  maxsize : Int
deriving DecidableEq, Repr

/-- Modelled from the spec: `asynch/pool.py` is not under `src/`.  Spec §3
requires `minsize ≥ 0`, `maxsize > 0`, `minsize ≤ maxsize`, validated at
construction with the failure reported synchronously and no partial pool
created; tests/test_pool.py asserts the three `ValueError` messages
(minsize below zero, maxsize not greater than zero, minsize greater than
maxsize). -/
def poolInit (minsize maxsize : Int) : Except PoolConfigError PoolConfig :=
  if minsize < 0 then .error .minsizeNegative
  else if maxsize ≤ 0 then .error .maxsizeNotPositive
  else if maxsize < minsize then .error .minsizeGreaterThanMaxsize
  else .ok ⟨minsize, maxsize⟩

/-- C9: Pool construction succeeds exactly on the valid size range
`0 ≤ minsize ≤ maxsize` with `0 < maxsize`; every other combination is
rejected with a configuration error and no pool value is produced. -/
theorem pool_construction_validates (minsize maxsize : Int) :
    (∃ p, poolInit minsize maxsize = Except.ok p)
      ↔ (0 ≤ minsize ∧ minsize ≤ maxsize ∧ 0 < maxsize) := by
  unfold poolInit
  split_ifs with h1 h2 h3
  · exact ⟨fun ⟨p, hp⟩ => absurd hp (by simp), fun hc => absurd hc (by omega)⟩
  · exact ⟨fun ⟨p, hp⟩ => absurd hp (by simp), fun hc => absurd hc (by omega)⟩
  · exact ⟨fun ⟨p, hp⟩ => absurd hp (by simp), fun hc => absurd hc (by omega)⟩
  · exact ⟨fun _ => by omega, fun _ => ⟨⟨minsize, maxsize⟩, rfl⟩⟩

/-- C9, witness: the boundary configurations from the test suite — the
pair (0, 1) is accepted and the pair (2, 1) is rejected. -/
theorem pool_construction_validates_witness :
    (∃ p, poolInit 0 1 = Except.ok p) ∧ ¬(∃ p, poolInit 2 1 = Except.ok p) :=
  ⟨(pool_construction_validates 0 1).mpr (by decide),
   fun hc => by
     have h := (pool_construction_validates 2 1).mp hc
     omega⟩

/-- Result of the external DSN parser relevant to `Connection.__init__`:
each component either absent or parsed to a value (which may be the empty
string, or zero for the port). -/
structure DsnConfig where
  user : Option String
  password : Option String
  host : Option String
  port : Option Nat
  database : Option String

/-- The connection parameters `Connection.__init__` stores (returned
verbatim by the `user`/`password`/`host`/`port`/`database` accessors). -/
structure ConnParams where
  user : String
  password : String
  host : String
  port : Nat
  database : String
deriving DecidableEq, Repr

/-- Python `config.get(key, None) or default` on a string field: the
parsed value when present and non-empty, otherwise the default. -/
def orDefaultStr (v : Option String) (d : String) : String :=
  match v with
  | some s => if s = "" then d else s
  | none => d

/-- Python `config.get(key, None) or default` on the integer port field:
the parsed value when present and non-zero, otherwise the default. -/
def orDefaultNat (v : Option Nat) (d : Nat) : Nat :=
  match v with
  | some n => if n = 0 then d else n
  | none => d

/-- The dsn branch of `Connection.__init__`: each stored field is the
parsed DSN component when truthy, else the keyword argument. -/
def initFromDsn (config : DsnConfig) (user password host : String)
    (port : Nat) (database : String) : ConnParams :=
  { user := orDefaultStr config.user user
    password := orDefaultStr config.password password
    host := orDefaultStr config.host host
    port := orDefaultNat config.port port
    database := orDefaultStr config.database database }

lemma orDefaultStr_of_some (s d : String) (h : s ≠ "") :
    orDefaultStr (some s) d = s := by
  simp [orDefaultStr, h]

lemma orDefaultStr_fallback (v : Option String) (d : String)
    (h : v = none ∨ v = some "") : orDefaultStr v d = d := by
  rcases h with h | h <;> subst h <;> simp [orDefaultStr]

lemma orDefaultNat_of_some (n d : Nat) (h : n ≠ 0) :
    orDefaultNat (some n) d = n := by
  simp [orDefaultNat, h]

lemma orDefaultNat_fallback (v : Option Nat) (d : Nat)
    (h : v = none ∨ v = some 0) : orDefaultNat v d = d := by
  rcases h with h | h <;> subst h <;> simp [orDefaultNat]

/-- C10: for a Connection constructed from a DSN, every stored parameter
(returned by the accessors) is the parsed DSN component when that
component is present and truthy (non-empty string, non-zero port), and
falls back to the keyword argument when the component is absent or empty
— in particular an empty DSN password is replaced by the default. -/
theorem dsn_field_precedence (cfg : DsnConfig) (user password host : String)
    (port : Nat) (database : String) :
    (∀ s, cfg.user = some s → s ≠ "" →
        (initFromDsn cfg user password host port database).user = s)
    ∧ (cfg.user = none ∨ cfg.user = some "" →
        (initFromDsn cfg user password host port database).user = user)
    ∧ (∀ s, cfg.password = some s → s ≠ "" →
        (initFromDsn cfg user password host port database).password = s)
    ∧ (cfg.password = none ∨ cfg.password = some "" →
        (initFromDsn cfg user password host port database).password = password)
    ∧ (∀ s, cfg.host = some s → s ≠ "" →
        (initFromDsn cfg user password host port database).host = s)
    ∧ (cfg.host = none ∨ cfg.host = some "" →
        (initFromDsn cfg user password host port database).host = host)
    ∧ (∀ n, cfg.port = some n → n ≠ 0 →
        (initFromDsn cfg user password host port database).port = n)
    ∧ (cfg.port = none ∨ cfg.port = some 0 →
        (initFromDsn cfg user password host port database).port = port)
    ∧ (∀ s, cfg.database = some s → s ≠ "" →
        (initFromDsn cfg user password host port database).database = s)
    ∧ (cfg.database = none ∨ cfg.database = some "" →
        (initFromDsn cfg user password host port database).database = database) := by
  refine ⟨fun s hs hne => ?_, fun h => ?_, fun s hs hne => ?_, fun h => ?_,
    fun s hs hne => ?_, fun h => ?_, fun n hn hne => ?_, fun h => ?_,
    fun s hs hne => ?_, fun h => ?_⟩ <;>
    simp only [initFromDsn]
  · rw [hs, orDefaultStr_of_some s user hne]
  · exact orDefaultStr_fallback cfg.user user h
  · rw [hs, orDefaultStr_of_some s password hne]
  · exact orDefaultStr_fallback cfg.password password h
  · rw [hs, orDefaultStr_of_some s host hne]
  · exact orDefaultStr_fallback cfg.host host h
  · rw [hn, orDefaultNat_of_some n port hne]
  · exact orDefaultNat_fallback cfg.port port h
  · rw [hs, orDefaultStr_of_some s database hne]
  · exact orDefaultStr_fallback cfg.database database h

/-- C10, witness: a DSN with a user and database, an empty password, an
absent host and a zero port — the parsed user and database win, while the
password, host and port fall back to the keyword arguments. -/
theorem dsn_field_precedence_witness :
    (initFromDsn ⟨some "alice", some "", none, some 0, some "db"⟩
        "default" "secret" "localhost" 9000 "base").user = "alice"
    ∧ (initFromDsn ⟨some "alice", some "", none, some 0, some "db"⟩
        "default" "secret" "localhost" 9000 "base").password = "secret"
    ∧ (initFromDsn ⟨some "alice", some "", none, some 0, some "db"⟩
        "default" "secret" "localhost" 9000 "base").host = "localhost"
    ∧ (initFromDsn ⟨some "alice", some "", none, some 0, some "db"⟩
        "default" "secret" "localhost" 9000 "base").port = 9000
    ∧ (initFromDsn ⟨some "alice", some "", none, some 0, some "db"⟩
        "default" "secret" "localhost" 9000 "base").database = "db" :=
  have h := dsn_field_precedence ⟨some "alice", some "", none, some 0, some "db"⟩
    "default" "secret" "localhost" 9000 "base"
  ⟨h.1 "alice" rfl (by decide),
   h.2.2.2.1 (Or.inr rfl),
   h.2.2.2.2.2.1 (Or.inl rfl),
   h.2.2.2.2.2.2.2.1 (Or.inr rfl),
   h.2.2.2.2.2.2.2.2.1 "db" rfl (by decide)⟩

end Asynch
